import Mathlib

/-!
Shallow embedding of the `http_library` crate (src/lib.rs, src/threads.rs).

Rust strings are modelled as Lean `String`; `&str` slicing primitives
(`contains`, `strip_suffix`, `starts_with`, `split_once`, `replace`) are
given executable definitions on the underlying character lists.
`HashMap<String, String>` is modelled as an insertion-ordered association
list whose `insert` replaces the value of an existing key (iteration order
of the Rust `HashMap` is unspecified; the model fixes insertion order).
Panics (`panic!`, `expect`) and `Result` are modelled with `Except`.
-/

/-- Model of Rust `str::contains(pat)`: `pat` occurs as a contiguous
substring of `s`. -/
def contains_substr (s pat : String) : Bool :=
  decide (pat.data <:+: s.data)

/-- Model of Rust `str::strip_suffix(suffix)`: `some` of the text before
`suffix` when `s` ends with `suffix`, otherwise `none`. -/
def strip_suffix (s suffix : String) : Option String :=
  if suffix.data <:+ s.data then
    some (String.mk (s.data.take (s.data.length - suffix.data.length)))
  else none

/-- Model of Rust `str::starts_with(pre)`. -/
def starts_with (s pre : String) : Bool :=
  decide (pre.data <+: s.data)

/-- Worker for `split_on`, structurally recursive on a fuel argument (one
unit of fuel per character consumed, so `length + 1` units always
suffice); `acc` holds the current chunk reversed. -/
def split_on_go (sep : List Char) : Nat → List Char → List Char → List (List Char)
  | 0, input, acc => [acc.reverse ++ input]
  | Nat.succ fuel, input, acc =>
    match input with
    | [] => [acc.reverse]
    | c :: cs =>
      if sep.isPrefixOf input then
        acc.reverse :: split_on_go sep fuel (input.drop sep.length) []
      else
        split_on_go sep fuel cs (c :: acc)

/-- Model of Rust `str::split(sep)` for a non-empty separator (the only
case the source uses): the chunks between consecutive non-overlapping
occurrences of `sep`, scanned left to right; always non-empty, and `[s]`
when `sep` does not occur. -/
def split_on (s sep : String) : List String :=
  (split_on_go sep.data (s.data.length + 1) s.data []).map String.mk

/-- Model of Rust `str::split_once(sep)`: splits at the first occurrence
of `sep`, returning the text before it and everything after it. -/
def split_once (s sep : String) : Option (String × String) :=
  match split_on s sep with
  | [] => none
  | [_] => none
  | k :: rest => some (k, String.intercalate sep rest)

/-- Model of `data.replace("\0", "")` in `Request::parse` (src/lib.rs line
189): removes every null character. -/
def replace_nulls (s : String) : String :=
  String.join (split_on s "\x00")

/-- Model of `HashMap::insert`: replace the value when the key is present,
otherwise add the pair. -/
def insert_header (m : List (String × String)) (k v : String) :
    List (String × String) :=
  if m.any (fun p => p.1 == k) then
    m.map (fun p => if p.1 == k then (k, v) else p)
  else m ++ [(k, v)]

/-- `Request` from src/lib.rs lines 170-176. -/
structure Request where
  path : String
  method : String
  headers : List (String × String)
  body : String

/-- `Response` from src/lib.rs lines 251-255; the boxed `dyn Display` body
is modelled by its textual form (`data.to_string()`), the only way the
code ever uses it. -/
structure Response where
  code : Nat
  data : Option String
  headers : List (String × String)

/-- `Handler` type alias from src/lib.rs line 225. -/
def Handler : Type := Request → Response

/-- `Route` from src/lib.rs lines 147-152. -/
structure Route where
  path : String
  methods : List String
  handler : Handler

/-- `Router` from src/lib.rs lines 12-15. -/
structure Router where
  host : String
  routes : List Route

/-- `Router::new` (src/lib.rs lines 25-30). -/
def Router.new (addr : String) : Router :=
  { routes := [], host := addr }

/-- `Router::handle_func` (src/lib.rs lines 53-64): builds a `Route` and
pushes it onto the route list; no validation of the pattern is performed. -/
def Router.handle_func (r : Router) (path : String) (handler : Handler)
    (methods : List String) : Router :=
  { r with routes := r.routes ++ [{ path := path, methods := methods, handler := handler }] }

/-- `Route::match_route` (src/lib.rs lines 155-167): `iter().find` over the
routes in order.  For each route, if its pattern contains `":?"` the code
calls `strip_suffix(":?").expect(...)` — a panic (modelled as
`Except.error`) when the token is not a suffix — and on success tests
whether the probe path starts with the stripped text; otherwise it tests
string equality.  `Except.ok none` models `find` returning `None`. -/
def Route.match_route : List Route → String → Except String (Option Route)
  | [], _ => Except.ok none
  | r :: rs, path =>
    if contains_substr r.path ":?" then
      match strip_suffix r.path ":?" with
      | some pre =>
        if starts_with path pre then Except.ok (some r)
        else Route.match_route rs path
      | none => Except.error "wildcard \x27:?\x27 must be at the end"
    else if r.path == path then Except.ok (some r)
    else Route.match_route rs path

/-- The matching rule exactly as the spec states it: a pattern ending in
the wildcard token matches when the text before the token is a literal
prefix of the path; any other pattern matches when it is string-equal to
the path. -/
def claim_matches (pat path : String) : Bool :=
  match strip_suffix pat ":?" with
  | some pre => starts_with path pre
  | none => pat == path

/-- The resolution function exactly as the spec states it: the first route
(in registration order) whose pattern matches, `none` if no pattern
matches. -/
def claim_resolve (routes : List Route) (path : String) : Option Route :=
  routes.find? (fun r => claim_matches r.path path)

/-- The header-collection loop of `Request::parse` (src/lib.rs lines
208-213): `for line in lines { if let Some((k, v)) = line.split_once(": ")
{ headers.insert(...) } }` — it runs over every remaining line of the
split, with no stop at a blank line. -/
def collect_headers (lines : List String) : List (String × String) :=
  lines.foldl
    (fun m l =>
      match split_once l ": " with
      | some kv => insert_header m kv.1 kv.2
      | none => m)
    []

/-- `Request::parse` (src/lib.rs lines 188-222).  Null characters are
stripped, the text is split on `"\r\n"`; the first line yields method
(index 0) and path (index 1) with the corresponding errors when absent;
every remaining line feeds the header loop; the body is the last element
of re-splitting the stripped text (`data[data.len() - 1]`). -/
def Request.parse (data : String) : Except String Request :=
  let stripped := replace_nulls data
  match split_on stripped "\r\n" with
  | [] => Except.error "invalid http data"
  | line :: rest =>
    match (split_on line " ").get? 0, (split_on line " ").get? 1 with
    | none, _ => Except.error "missing method in request"
    | some _, none => Except.error "missing path in request"
    | some mth, some pth =>
      Except.ok
        { method := mth
          path := pth
          headers := collect_headers rest
          body := (split_on stripped "\r\n").getLastD "" }

/-- `Response::new` (src/lib.rs lines 269-282): inserts
`Content-Type: text/plain`, then `Content-Length` as the byte length of
the body's textual form. -/
def Response.new (code : Nat) (data : String) : Response :=
  { code := code
    data := some data
    headers :=
      insert_header
        (insert_header [] "Content-Type" "text/plain")
        "Content-Length" (toString data.utf8ByteSize) }

/-- `Response::empty` (src/lib.rs lines 295-301). -/
def Response.empty (code : Nat) : Response :=
  { code := code, data := none, headers := [] }

/-- `Response::add_header` (src/lib.rs lines 364-367). -/
def Response.add_header (res : Response) (key val : String) : Response :=
  { res with headers := insert_header res.headers key val }

/-- The `Display` impl of `Json` (src/lib.rs lines 229-247): `\x7b`, then
for each entry the quoted pair, a comma after every entry but the last,
then `\x7d`.  The `HashMap` is modelled as an insertion-ordered list. -/
def json_to_string (m : List (String × String)) : String :=
  let core := m.enum.foldl
    (fun s iv =>
      let s2 := s ++ "\"" ++ iv.2.1 ++ "\": \"" ++ iv.2.2 ++ "\""
      if iv.1 != m.length - 1 then s2 ++ "," else s2)
    "\x7b"
  core ++ "\x7d"

/-- `Response::json` (src/lib.rs lines 318-329): the body is the `Json`
wrapper's textual form, the headers start empty and only
`Content-Type: application/json` is added. -/
def Response.json (code : Nat) (data : List (String × String)) : Response :=
  (Response.mk code (some (json_to_string data)) []).add_header
    "Content-Type" "application/json"

/-- `Response::file` (src/lib.rs lines 342-351): the filesystem read
`fs::read_to_string(path).unwrap()` is external to the core and is
modelled by its result `contents`; the headers start empty and only
`Content-Type: text/html` is added. -/
def Response.file (code : Nat) (contents : String) : Response :=
  (Response.mk code (some contents) []).add_header "Content-Type" "text/html"

/-- `Response::to_string` (src/lib.rs lines 390-406): each header as
`key: val` plus `"\r\n"`, then a blank `"\r\n"` when the header map is
non-empty, then the body's textual form when present, then a trailing
`"\r\n"`. -/
def Response.to_string (res : Response) : String :=
  let output := res.headers.foldl
    (fun output p => output ++ (p.1 ++ ": " ++ p.2 ++ "\r\n")) ""
  let output := if res.headers.length != 0 then output ++ "\r\n" else output
  let output :=
    match res.data with
    | some d => output ++ d
    | none => output
  output ++ "\r\n"

/-- The full wire output built in `handle_connection` (src/lib.rs lines
128-133): `format!("HTTP/1.1 {} {}\r\n{}", code, reason, res.to_string())`
with reason `"OK"` when the code is 200 and a single space otherwise. -/
def encode_response (res : Response) : String :=
  "HTTP/1.1 " ++ toString res.code ++ " " ++
    (if res.code == 200 then "OK" else " ") ++ "\r\n" ++ res.to_string

/-- `method_not_allowed_handler` (src/lib.rs lines 139-141). -/
def method_not_allowed_handler : Handler :=
  fun _req => Response.new 405 "method not allowed"

/-- `not_found_handler` (src/lib.rs lines 143-145). -/
def not_found_handler : Handler :=
  fun _req => Response.new 404 "page not found"

/-- `handle_connection` (src/lib.rs lines 102-137) as a function of the
bytes the single read produced (UTF-8 decoding of valid text is the
identity here; `Request::from_utf8` then calls `Request::parse`).  The
`if n == 0` branch of the source is an empty `todo` block, so a zero-byte
read flows on into the parser unchanged.  A parse failure is a `panic!`
(`Except.error`), as is a panic inside `match_route`; otherwise the chosen
handler runs and the encoded response text is the value written to the
stream. -/
def handle_connection (routes : List Route) (buf : String) :
    Except String String :=
  match Request.parse buf with
  | Except.error e => Except.error e
  | Except.ok req =>
    match Route.match_route routes req.path with
    | Except.error e => Except.error e
    | Except.ok oroute =>
      let handler : Handler :=
        match oroute with
        | some route =>
          if route.methods.contains req.method then route.handler
          else method_not_allowed_handler
        | none => not_found_handler
      let res := handler req
      Except.ok (encode_response res)

/-- `PoolCreationError` (src/threads.rs lines 101-104). -/
inductive PoolCreationError where
  | ZeroThreadsError
deriving DecidableEq

/-- `Worker` (src/threads.rs lines 65-68); the spawned thread's receive
loop is runtime behaviour outside the embedding, so a worker is identified
by its id. -/
structure Worker where
  id : Nat
deriving DecidableEq

/-- `Worker::new` (src/threads.rs lines 70-98): spawns the thread and
records the id. -/
def Worker.new (id : Nat) : Worker :=
  { id := id }

/-- `ThreadPool` (src/threads.rs lines 6-9); the channel sender is
modelled by its presence (`Option`), matching `Option<mpsc::Sender>`. -/
structure ThreadPool where
  workers : List Worker
  sender : Option Unit

/-- `ThreadPool::build` (src/threads.rs lines 21-38): size 0 is the
`ZeroThreadsError`; otherwise one worker per id in `0..size`. -/
def ThreadPool.build (size : Nat) : Except PoolCreationError ThreadPool :=
  if size == 0 then Except.error PoolCreationError.ZeroThreadsError
  else
    Except.ok
      { workers := (List.range size).map Worker.new
        sender := some () }

/-- A concrete handler, mirroring the `test` handler of the doc examples
in src/lib.rs. -/
def dummy_handler : Handler := fun _req => Response.new 200 "hi"

/-- A route table whose single pattern carries the wildcard token in the
middle rather than at the end. -/
def infix_wildcard_routes : List Route :=
  [{ path := "/a:?/b", methods := ["GET"], handler := dummy_handler }]

/-- The route table of the `handle_func` doc example: a wildcard route
registered before an exact route it shadows. -/
def shadow_routes : List Route :=
  [{ path := "/te:?", methods := ["GET"], handler := dummy_handler },
   { path := "/test", methods := ["GET"], handler := dummy_handler }]

/-- When a pattern does not contain the token at all, `strip_suffix` on it
yields `none`: a suffix occurrence would in particular be a substring
occurrence. -/
theorem strip_suffix_eq_none_of_contains_false (s pat : String)
    (h : contains_substr s pat = false) : strip_suffix s pat = none := by
  unfold strip_suffix
  rw [if_neg]
  intro hsuf
  unfold contains_substr at h
  rw [decide_eq_false_iff_not] at h
  obtain ⟨t, ht⟩ := hsuf
  exact h ⟨t, [], by simpa using ht⟩

/-- Claim C1 (amended): provided every registered pattern that contains
the wildcard token `":?"` has it as a suffix, `Route::match_route` returns
(without panicking) the first route in insertion order whose pattern
matches the probe path — prefix match on the text before the token for a
wildcard pattern, string equality otherwise — and `none` when no pattern
matches. -/
theorem C1_first_match_resolution (routes : List Route) (path : String)
    (h : ∀ r ∈ routes, contains_substr r.path ":?" = true →
      (strip_suffix r.path ":?").isSome = true) :
    Route.match_route routes path = Except.ok (claim_resolve routes path) := by
  induction routes with
  | nil => rfl
  | cons r rs ih =>
    have ihx := ih (fun x hx => h x (List.mem_cons_of_mem r hx))
    unfold Route.match_route claim_resolve
    rw [List.find?_cons]
    unfold claim_resolve at ihx
    by_cases hc : contains_substr r.path ":?" = true
    · obtain ⟨pre, hpre⟩ :=
        Option.isSome_iff_exists.mp (h r (List.mem_cons_self r rs) hc)
      simp only [hc, if_true, hpre, claim_matches]
      by_cases hs : starts_with path pre = true
      · simp [hs]
      · rw [Bool.not_eq_true] at hs
        simp [hs, ihx]
        rfl
    · rw [Bool.not_eq_true] at hc
      have hn := strip_suffix_eq_none_of_contains_false r.path ":?" hc
      simp only [hc, Bool.false_eq_true, if_false, claim_matches, hn]
      by_cases he : (r.path == path) = true
      · simp [he]
      · rw [Bool.not_eq_true] at he
        simp [he, ihx]
        rfl

/-- Claim C1, counterexample: on a table whose pattern `"/a:?/b"` carries
the token away from the end, resolution for the unmatched path `"x"`
panics in `strip_suffix(":?").expect(...)` instead of returning `none` as
the claim requires. -/
theorem C1_cex :
    Route.match_route infix_wildcard_routes "x" =
      Except.error "wildcard \x27:?\x27 must be at the end" ∧
    claim_resolve infix_wildcard_routes "x" = none ∧
    Route.match_route infix_wildcard_routes "x" ≠
      Except.ok (claim_resolve infix_wildcard_routes "x") :=
  ⟨rfl, rfl, fun hcontra => Except.noConfusion hcontra⟩

/-- Claim C1, witness: the amended theorem applied to the doc example
table, where the wildcard route `"/te:?"` shadows the later exact route
`"/test"`. -/
theorem C1_witness :
    (∀ r ∈ shadow_routes, contains_substr r.path ":?" = true →
      (strip_suffix r.path ":?").isSome = true) ∧
    Route.match_route shadow_routes "/test" =
      Except.ok (claim_resolve shadow_routes "/test") := by
  have hW : ∀ r ∈ shadow_routes, contains_substr r.path ":?" = true →
      (strip_suffix r.path ":?").isSome = true := by decide
  exact ⟨hW, C1_first_match_resolution shadow_routes "/test" hW⟩

/-- Claim C10: `handle_func` accepts the pattern `"/a:?/b"` (the route is
registered, no error path exists), yet `match_route` on the resulting
table panics for the probe path `"/a"`, because the wildcard token is not
a suffix of the pattern. -/
theorem C10_wildcard_mid_pattern_panics :
    (Router.handle_func (Router.new "127.0.0.1:8000") "/a:?/b" dummy_handler
      ["GET"]).routes.length = 1 ∧
    Route.match_route
      (Router.handle_func (Router.new "127.0.0.1:8000") "/a:?/b" dummy_handler
        ["GET"]).routes "/a" =
      Except.error "wildcard \x27:?\x27 must be at the end" :=
  ⟨rfl, rfl⟩

/-- The header lines exactly as the claim delimits them: the lines after
the request line and before the first blank line. -/
def claim2_header_region (data : String) : List String :=
  ((split_on (replace_nulls data) "\r\n").drop 1).takeWhile (fun l => l != "")

/-- The header map built only from that region, with the same
`split_once(": ")` / skip rule. -/
def claim2_headers (data : String) : List (String × String) :=
  collect_headers (claim2_header_region data)

/-- The header map as the code actually builds it: from every line after
the request line, with no stop at the first blank line. -/
def claim2_amended_headers (data : String) : List (String × String) :=
  collect_headers ((split_on (replace_nulls data) "\r\n").drop 1)

/-- The body as the code actually builds it: the final line-separator
delimited segment of the null-stripped buffer. -/
def claim3_amended_body (data : String) : String :=
  (split_on (replace_nulls data) "\r\n").getLastD ""

/-- A request whose only `"key: value"`-shaped line sits after the first
blank line. -/
def after_blank_input : String := "GET / HTTP/1.1\r\n\r\nFoo: bar"

/-- A request whose body spans a line-separator sequence. -/
def multiline_body_input : String :=
  "GET / HTTP/1.1\r\nHost: x\r\n\r\nhello\r\nworld"

/-- A request with no padding whose body contains a genuine null byte. -/
def null_body_input : String := "GET / HTTP/1.1\r\n\r\na\x00b"

/-- Claim C2 (amended): every line after the request line — including
lines after the first blank line — that contains the `": "` separator
becomes a header entry (key before the first separator, value after),
lines without the separator are skipped without error. -/
theorem C2_headers_from_every_line (data : String) (req : Request)
    (h : Request.parse data = Except.ok req) :
    req.headers = claim2_amended_headers data := by
  unfold Request.parse at h
  simp only [] at h
  split at h
  · exact Except.noConfusion h
  · rename_i line rest heq
    split at h
    · exact Except.noConfusion h
    · exact Except.noConfusion h
    · injection h with h2
      subst h2
      unfold claim2_amended_headers
      rw [heq]
      rfl

/-- Claim C2, counterexample: in `"GET / HTTP/1.1\r\n\r\nFoo: bar"` the
line `"Foo: bar"` lies after the first blank line — the claim's header
region is empty — yet the code parses it into the header map. -/
theorem C2_cex :
    Request.parse after_blank_input =
      Except.ok (Request.mk "/" "GET" [("Foo", "bar")] "Foo: bar") ∧
    claim2_headers after_blank_input = [] :=
  ⟨rfl, rfl⟩

/-- Claim C2, witness: the amended theorem applied to the same buffer. -/
theorem C2_witness :
    Request.parse after_blank_input =
      Except.ok (Request.mk "/" "GET" [("Foo", "bar")] "Foo: bar") ∧
    (Request.mk "/" "GET" [("Foo", "bar")] "Foo: bar").headers =
      claim2_amended_headers after_blank_input :=
  ⟨rfl, C2_headers_from_every_line after_blank_input _ rfl⟩

/-- Claim C3 (amended): the body of a parsed request is the final
line-separator delimited segment of the null-stripped buffer, not
everything after the header block. -/
theorem C3_body_is_last_segment (data : String) (req : Request)
    (h : Request.parse data = Except.ok req) :
    req.body = claim3_amended_body data := by
  unfold Request.parse at h
  simp only [] at h
  split at h
  · exact Except.noConfusion h
  · rename_i line rest heq
    split at h
    · exact Except.noConfusion h
    · exact Except.noConfusion h
    · injection h with h2
      subst h2
      rfl

/-- Claim C3, counterexample: the buffer whose body is
`"hello\r\nworld"` parses with body `"world"` — the body is truncated to
the final segment, not preserved whole as the claim states. -/
theorem C3_cex :
    (Request.parse multiline_body_input).toOption.map Request.body =
      some "world" ∧
    "world" ≠ "hello\r\nworld" :=
  ⟨rfl, by decide⟩

/-- Claim C3, witness: the amended theorem applied to the same buffer. -/
theorem C3_witness :
    Request.parse multiline_body_input =
      Except.ok (Request.mk "/" "GET" [("Host", "x")] "world") ∧
    (Request.mk "/" "GET" [("Host", "x")] "world").body =
      claim3_amended_body multiline_body_input :=
  ⟨rfl, C3_body_is_last_segment multiline_body_input _ rfl⟩

/-- Claim C5: `"GET / HTTP/1.1\r\n\r\na\x00b"` has no read padding — the
null byte is genuine body data — yet the stripping step
`data.replace("\0", "")` is not a no-op on it, and the parsed body comes
out as `"ab"` instead of the claimed verbatim `"a\x00b"`. -/
theorem C5_null_stripping_not_noop :
    replace_nulls null_body_input ≠ null_body_input ∧
    (Request.parse null_body_input).toOption.map Request.body = some "ab" ∧
    "ab" ≠ "a\x00b" :=
  ⟨by decide, rfl, by decide⟩

/-- Claim C6: a zero-byte read leaves the `if n == 0` block of
`handle_connection` (an empty `todo`) without effect, so the empty buffer
is passed on to `Request::parse`, which rejects it with
`"missing path in request"`; the worker then panics rather than treating
the closed connection as a distinct failure. -/
theorem C6_zero_read_reaches_decoder (routes : List Route) :
    handle_connection routes "" = Except.error "missing path in request" :=
  rfl

/-- Claim C6, witness: the theorem at the empty route table. -/
theorem C6_witness :
    handle_connection [] "" = Except.error "missing path in request" :=
  C6_zero_read_reaches_decoder []

/-- Claim C4 (amended): only `Response::new` derives both
`Content-Type: text/plain` and `Content-Length`; `Response::json` and
`Response::file` start with an empty header map and add only their
`Content-Type` (`application/json` resp. `text/html`), never a
`Content-Length`; `Response::empty` carries no headers. -/
theorem C4_constructor_headers :
    (∀ (code : Nat) (data : String), (Response.new code data).headers =
      [("Content-Type", "text/plain"),
       ("Content-Length", toString data.utf8ByteSize)]) ∧
    (∀ (code : Nat) (m : List (String × String)),
      (Response.json code m).headers = [("Content-Type", "application/json")]) ∧
    (∀ (code : Nat) (contents : String),
      (Response.file code contents).headers = [("Content-Type", "text/html")]) ∧
    (∀ code : Nat, (Response.empty code).headers = []) :=
  ⟨fun _ _ => rfl, fun _ _ => rfl, fun _ _ => rfl, fun _ => rfl⟩

/-- Claim C4, counterexample: a `Response::json` and a `Response::file`
response each carry no `Content-Length` header at all, although both are
constructed with a body. -/
theorem C4_cex :
    (Response.json 200 [("foo", "bar")]).headers.lookup "Content-Length" =
      none ∧
    (Response.file 200 "<html></html>").headers.lookup "Content-Length" =
      none ∧
    (Response.json 200 [("foo", "bar")]).data.isSome = true ∧
    (Response.file 200 "<html></html>").data.isSome = true :=
  ⟨rfl, rfl, rfl, rfl⟩

/-- The claim's rendering of the header block: each header as
`key: value` plus a line separator. -/
def header_lines : List (String × String) → String
  | [] => ""
  | p :: ps => p.1 ++ ": " ++ p.2 ++ "\r\n" ++ header_lines ps

/-- The wire encoding exactly as the claim describes it: the status line
with reason `OK` for code 200 and a single space otherwise, the header
block, one blank-line separator exactly when at least one header exists,
the body's textual form when present, and a trailing line separator. -/
def spec_encode (res : Response) : String :=
  "HTTP/1.1 " ++ toString res.code ++ " " ++
    (if res.code == 200 then "OK" else " ") ++ "\r\n" ++
  header_lines res.headers ++
  (if res.headers.isEmpty then "" else "\r\n") ++
  (match res.data with
   | some b => b
   | none => "") ++
  "\r\n"

/-- The header fold of `Response::to_string` appends the rendered header
block to its accumulator. -/
theorem to_string_foldl_eq (hs : List (String × String)) (acc : String) :
    hs.foldl (fun output p => output ++ (p.1 ++ ": " ++ p.2 ++ "\r\n")) acc =
      acc ++ header_lines hs := by
  induction hs generalizing acc with
  | nil => simp [header_lines, String.append_empty]
  | cons p ps ih =>
    rw [List.foldl_cons, ih]
    simp [header_lines, String.append_assoc]

/-- Claim C7: the encoder output is exactly the claimed byte sequence, and
in particular `Response::new(200, "hi")` encodes to the status line
`HTTP/1.1 200 OK`, the headers `Content-Type: text/plain` and
`Content-Length: 2`, a blank line, and the body `hi`. -/
theorem C7_encoder_format :
    (∀ res : Response, encode_response res = spec_encode res) ∧
    encode_response (Response.new 200 "hi") =
      "HTTP/1.1 200 OK\r\nContent-Type: text/plain\r\nContent-Length: 2\r\n\r\nhi\r\n" := by
  constructor
  · intro res
    obtain ⟨code, data, headers⟩ := res
    unfold encode_response spec_encode Response.to_string
    simp only [to_string_foldl_eq, String.empty_append]
    cases data <;> cases headers <;>
      simp [header_lines, String.append_assoc, String.append_empty]
  · rfl

/-- Claim C8: `ThreadPool::build(0)` reports the zero-threads
configuration error to the caller, and for every positive size the built
pool holds exactly `size` spawned workers. -/
theorem C8_pool_build :
    ThreadPool.build 0 = Except.error PoolCreationError.ZeroThreadsError ∧
    ∀ size : Nat, 0 < size →
      ∃ p, ThreadPool.build size = Except.ok p ∧ p.workers.length = size := by
  refine ⟨rfl, fun size h => ?_⟩
  have hne : size ≠ 0 := Nat.pos_iff_ne_zero.mp h
  refine ⟨{ workers := (List.range size).map Worker.new, sender := some () },
    ?_, ?_⟩
  · simp [ThreadPool.build, hne]
  · simp

/-- Claim C8, witness: the theorem at size 4, the pool size `serve`
actually builds. -/
theorem C8_witness :
    0 < 4 ∧ ∃ p, ThreadPool.build 4 = Except.ok p ∧ p.workers.length = 4 :=
  ⟨by decide, C8_pool_build.2 4 (by decide)⟩
